import Mathlib

/-!
Verification of the chunking / deduplication / ranked-retrieval pipeline of the
Elcam-V2 server repository (src/streamlit_app.py and src/dashboard_app.py).

Text is modelled as `List Char`.  Python slicing (including negative indices),
`str.rfind`, and `str.strip` are embedded directly; the `while` loop of
`chunk_text` is embedded as a fuel-indexed recursion `chunkLoop`, where a
`none` result means the loop is still running after the given number of
iterations.  The external OpenSearch engine is modelled by a concrete record
store plus a fault oracle that decides which client calls raise exceptions.
-/

namespace Elcam

/-- Python index clamping for a slice bound: a negative index counts from the
end of the sequence, and every bound is clamped into `[0, n]`. -/
def clampIdx (n : Nat) (i : Int) : Nat :=
  if i < 0 then ((n : Int) + i).toNat
  else if i ≤ (n : Int) then i.toNat else n

/-- Python slice `l[a:b]` on a list of characters. -/
def pySlice (l : List Char) (a b : Int) : List Char :=
  (l.take (clampIdx l.length b)).drop (clampIdx l.length a)

/-- Auxiliary recursion for `rfind`: scan the list left to right, remembering
the index of the last occurrence seen so far (`-1` when none). -/
def rfindAux (c : Char) : List Char → Nat → Int → Int
  | [], _, best => best
  | x :: xs, i, best => rfindAux c xs (i + 1) (if x = c then (i : Int) else best)

/-- Python `s.rfind(c)`: index of the last occurrence of `c` in `s`,
or `-1` when `c` does not occur. -/
def rfind (l : List Char) (c : Char) : Int :=
  rfindAux c l 0 (-1)

/-- The whitespace set stripped by Python `str.strip()` (ASCII part). -/
def isPySpace (c : Char) : Bool :=
  c = ' ' || c = '\t' || c = '\n' || c = '\r' || c = '\x0b' || c = '\x0c'

/-- Python `s.strip()`: drop leading and trailing whitespace. -/
def pyStrip (l : List Char) : List Char :=
  ((l.dropWhile isPySpace).reverse.dropWhile isPySpace).reverse

/-- One chunk record produced by `chunk_text`
(src/streamlit_app.py lines 80-85). -/
structure Chunk where
  text : List Char
  start_position : Int
  end_position : Int
  chunk_id : Nat
deriving DecidableEq

/-- The adjusted window end computed by `chunk_text` for the window starting
at `start` (src/streamlit_app.py lines 68-78): the tentative end is
`start + chunk_size`; if that falls strictly before the end of the text, the
last `'.'` and last `' '` of the window are located with `rfind` (indices
relative to the window) and, when their maximum exceeds
`start + chunk_size // 2`, the end becomes `start + boundary + 1`. -/
def windowEnd (text : List Char) (chunk_size : Nat) (start : Int) : Int :=
  if start + (chunk_size : Int) < (text.length : Int) then
    if max (rfind (pySlice text start (start + (chunk_size : Int))) '.')
           (rfind (pySlice text start (start + (chunk_size : Int))) ' ')
        > start + ((chunk_size / 2 : Nat) : Int) then
      start + max (rfind (pySlice text start (start + (chunk_size : Int))) '.')
                  (rfind (pySlice text start (start + (chunk_size : Int))) ' ') + 1
    else start + (chunk_size : Int)
  else start + (chunk_size : Int)

/-- The chunk appended for the window starting at `start` when `chunks` already
holds `id` chunks: the window text is stripped, and the unclamped window
bounds are recorded (src/streamlit_app.py lines 80-85). -/
def mkChunk (text : List Char) (chunk_size : Nat) (start : Int) (id : Nat) : Chunk :=
  ⟨pyStrip (pySlice text start (windowEnd text chunk_size start)), start,
    windowEnd text chunk_size start, id⟩

/-- Fuel-indexed embedding of the `while start < len(text)` loop of
`chunk_text` (src/streamlit_app.py lines 67-89).  `none` means the loop has
not finished within `fuel` iterations.  After appending a chunk the next start
is `end - overlap`, and the loop breaks when that is `≥ len(text)`. -/
def chunkLoop (text : List Char) (chunk_size overlap : Nat) :
    Nat → Int → List Chunk → Option (List Chunk)
  | 0, start, chunks =>
      if start < (text.length : Int) then none else some chunks
  | fuel + 1, start, chunks =>
      if start < (text.length : Int) then
        if windowEnd text chunk_size start - (overlap : Int) ≥ (text.length : Int) then
          some (chunks ++ [mkChunk text chunk_size start chunks.length])
        else
          chunkLoop text chunk_size overlap fuel
            (windowEnd text chunk_size start - (overlap : Int))
            (chunks ++ [mkChunk text chunk_size start chunks.length])
      else some chunks

/-- `chunk_text(text, chunk_size, overlap)` (src/streamlit_app.py lines
62-91), run with fuel `text.length + 1`; that fuel is proved sufficient for
the parameter range in which the loop terminates at all (see the termination
theorems below).  The source's call sites use the defaults `1000` and `200`. -/
def chunk_text (text : List Char) (chunk_size overlap : Nat) : List Chunk :=
  (chunkLoop text chunk_size overlap (text.length + 1) 0 []).getD []

/-- Termination of the `chunk_text` loop from the initial state. -/
def chunkTextTerminates (text : List Char) (chunk_size overlap : Nat) : Prop :=
  ∃ fuel, (chunkLoop text chunk_size overlap fuel 0 []).isSome

/-! ### Basic bounds on the slicing primitives -/

theorem clampIdx_le (n : Nat) (i : Int) : clampIdx n i ≤ n := by
  unfold clampIdx
  split_ifs <;> omega

theorem clampIdx_add_le (n : Nat) (a : Int) (c : Nat) :
    clampIdx n (a + (c : Int)) ≤ clampIdx n a + c := by
  unfold clampIdx
  split_ifs <;> omega

theorem pySlice_length_le (l : List Char) (a : Int) (c : Nat) :
    (pySlice l a (a + (c : Int))).length ≤ c := by
  unfold pySlice
  rw [List.length_drop, List.length_take]
  have h1 := clampIdx_add_le l.length a c
  have h2 : min (clampIdx l.length (a + (c : Int))) l.length
      ≤ clampIdx l.length (a + (c : Int)) := Nat.min_le_left _ _
  omega

theorem rfindAux_lt (c : Char) :
    ∀ (l : List Char) (i : Nat) (best : Int), best < (i : Int) →
      rfindAux c l i best < (i : Int) + l.length := by
  intro l
  induction l with
  | nil => intro i best h; simpa [rfindAux] using h
  | cons x xs ih =>
      intro i best h
      simp only [rfindAux, List.length_cons]
      have := ih (i + 1) (if x = c then (i : Int) else best) (by split_ifs <;> omega)
      push_cast at this ⊢
      omega

theorem rfind_lt_length (l : List Char) (c : Char) :
    rfind l c < (l.length : Int) := by
  have := rfindAux_lt c l 0 (-1) (by omega)
  simpa [rfind] using this

/-! ### Bounds on the per-window end computed by `chunk_text` -/

theorem windowEnd_le (text : List Char) (cs : Nat) (start : Int) :
    windowEnd text cs start ≤ start + (cs : Int) := by
  unfold windowEnd
  split_ifs with h1 h2
  · have hp := rfind_lt_length (pySlice text start (start + (cs : Int))) '.'
    have hs := rfind_lt_length (pySlice text start (start + (cs : Int))) ' '
    have hlen := pySlice_length_le text start cs
    rcases max_cases (rfind (pySlice text start (start + (cs : Int))) '.')
      (rfind (pySlice text start (start + (cs : Int))) ' ') with ⟨he, _⟩ | ⟨he, _⟩ <;>
      rw [he] <;> omega
  · omega
  · omega

theorem windowEnd_ge (text : List Char) (cs : Nat) (start : Int) (h0 : 0 ≤ start) :
    start ≤ windowEnd text cs start := by
  unfold windowEnd
  split_ifs with h1 h2
  · omega
  · omega
  · omega

/-- Strict progress of the loop: when the start is nonnegative and the overlap
is at most `chunk_size / 2 + 1` (and smaller than `chunk_size`), the next
start `windowEnd - overlap` strictly exceeds the current start. -/
theorem windowEnd_progress (text : List Char) (cs ov : Nat) (start : Int)
    (h0 : 0 ≤ start) (hovcs : ov < cs) (hov : ov ≤ cs / 2 + 1) :
    start + 1 ≤ windowEnd text cs start - (ov : Int) := by
  unfold windowEnd
  split_ifs with h1 h2
  · omega
  · omega
  · omega

/-! ### Termination of the chunk loop for moderate overlap -/

/-- Fuel sufficiency: as long as the start strictly increases each iteration
(`ov < cs` and `ov ≤ cs / 2 + 1`), fuel covering the remaining distance to the
end of the text completes the loop. -/
theorem chunkLoop_isSome_of_fuel (text : List Char) (cs ov : Nat)
    (hovcs : ov < cs) (hov : ov ≤ cs / 2 + 1) :
    ∀ (fuel : Nat) (start : Int) (acc : List Chunk), 0 ≤ start →
      (text.length : Int) ≤ start + fuel →
      (chunkLoop text cs ov fuel start acc).isSome := by
  intro fuel
  induction fuel with
  | zero =>
      intro start acc h0 hf
      simp only [chunkLoop]
      rw [if_neg (by omega)]
      simp
  | succ n ih =>
      intro start acc h0 hf
      simp only [chunkLoop]
      split_ifs with h1 h2
      · simp
      · have hprog := windowEnd_progress text cs ov start h0 hovcs hov
        refine ih _ _ (by omega) (by push_cast at hf ⊢; omega)
      · simp

/-- Non-termination when the overlap reaches the chunk size: the next start
never exceeds the current one, so a nonempty text keeps the loop alive for
every amount of fuel. -/
theorem chunkLoop_none_of_overlap_ge (text : List Char) (cs ov : Nat)
    (hov : cs ≤ ov) (hlen : 0 < text.length) :
    ∀ (fuel : Nat) (start : Int) (acc : List Chunk), start ≤ 0 →
      chunkLoop text cs ov fuel start acc = none := by
  intro fuel
  induction fuel with
  | zero =>
      intro start acc h0
      simp only [chunkLoop]
      rw [if_pos (by omega)]
  | succ n ih =>
      intro start acc h0
      have hle := windowEnd_le text cs start
      simp only [chunkLoop]
      rw [if_pos (by omega), if_neg (by omega)]
      exact ih _ _ (by omega)

/-! ### Invariants of every emitted chunk -/

/-- Offset bounds carried through the loop under the terminating parameter
range: every chunk in a completed run has a nonnegative start strictly below
the text length, and an end between the start and `start + chunk_size`. -/
theorem chunkLoop_mem_bounds (text : List Char) (cs ov : Nat)
    (hovcs : ov < cs) (hov : ov ≤ cs / 2 + 1) :
    ∀ (fuel : Nat) (start : Int) (acc r : List Chunk), 0 ≤ start →
      (∀ c ∈ acc, 0 ≤ c.start_position ∧ c.start_position ≤ c.end_position ∧
        c.end_position ≤ c.start_position + (cs : Int) ∧
        c.start_position < (text.length : Int)) →
      chunkLoop text cs ov fuel start acc = some r →
      ∀ c ∈ r, 0 ≤ c.start_position ∧ c.start_position ≤ c.end_position ∧
        c.end_position ≤ c.start_position + (cs : Int) ∧
        c.start_position < (text.length : Int) := by
  intro fuel
  induction fuel with
  | zero =>
      intro start acc r h0 hacc hrun
      simp only [chunkLoop] at hrun
      split_ifs at hrun with h1
      obtain rfl : acc = r := Option.some.inj hrun
      exact hacc
  | succ n ih =>
      intro start acc r h0 hacc hrun
      simp only [chunkLoop] at hrun
      split_ifs at hrun with h1 h2
      · obtain rfl : _ = r := Option.some.inj hrun
        intro c hc
        rcases List.mem_append.mp hc with hold | hnew
        · exact hacc c hold
        · rcases List.mem_singleton.mp hnew with rfl
          refine ⟨h0, windowEnd_ge text cs start h0, windowEnd_le text cs start, h1⟩
      · refine ih _ _ _ ?_ ?_ hrun
        · have := windowEnd_progress text cs ov start h0 hovcs hov
          omega
        · intro c hc
          rcases List.mem_append.mp hc with hold | hnew
          · exact hacc c hold
          · rcases List.mem_singleton.mp hnew with rfl
            exact ⟨h0, windowEnd_ge text cs start h0, windowEnd_le text cs start, h1⟩
      · obtain rfl : acc = r := Option.some.inj hrun
        exact hacc

/-- Text/offset correspondence carried through the loop, for any parameters:
every chunk in a completed run records exactly the stripped window
`text[start_position:end_position]`. -/
theorem chunkLoop_mem_text (text : List Char) (cs ov : Nat) :
    ∀ (fuel : Nat) (start : Int) (acc r : List Chunk),
      (∀ c ∈ acc, c.text = pyStrip (pySlice text c.start_position c.end_position)) →
      chunkLoop text cs ov fuel start acc = some r →
      ∀ c ∈ r, c.text = pyStrip (pySlice text c.start_position c.end_position) := by
  intro fuel
  induction fuel with
  | zero =>
      intro start acc r hacc hrun
      simp only [chunkLoop] at hrun
      split_ifs at hrun with h1
      obtain rfl : acc = r := Option.some.inj hrun
      exact hacc
  | succ n ih =>
      intro start acc r hacc hrun
      simp only [chunkLoop] at hrun
      split_ifs at hrun with h1 h2
      · obtain rfl : _ = r := Option.some.inj hrun
        intro c hc
        rcases List.mem_append.mp hc with hold | hnew
        · exact hacc c hold
        · rcases List.mem_singleton.mp hnew with rfl
          rfl
      · refine ih _ _ _ ?_ hrun
        intro c hc
        rcases List.mem_append.mp hc with hold | hnew
        · exact hacc c hold
        · rcases List.mem_singleton.mp hnew with rfl
          rfl
      · obtain rfl : acc = r := Option.some.inj hrun
        exact hacc

/-! ### Concrete inputs used by the counterexamples -/

/-- Twelve characters with a period at index 6: under `chunk_size = 10`,
`overlap = 9` the first window shrinks to end `7`, the next start is
`7 - 9 = -2`, and the loop cycles through starts `0, -2, -1, 0, ...`. -/
def T1 : List Char := "aaaaaa.bbbbb".toList

/-- Thirty characters with periods at indices 7 and 13; used to exhibit the
window-relative versus absolute boundary comparison of `chunk_text`. -/
def T4 : List Char := "abcdefg.hijkl.mnopqrstuvwxyzzz".toList

/-- On `T1` with `chunk_size = 10`, `overlap = 9` the loop revisits the same
start forever: from any of the three starts of the cycle it never finishes,
whatever the fuel. -/
theorem chunkLoop_T1_cycle :
    ∀ (fuel : Nat) (start : Int) (acc : List Chunk),
      start = 0 ∨ start = -2 ∨ start = -1 →
      chunkLoop T1 10 9 fuel start acc = none := by
  intro fuel
  induction fuel with
  | zero =>
      rintro start acc (rfl | rfl | rfl) <;>
        (simp only [chunkLoop]; rw [if_pos (by decide)])
  | succ n ih =>
      rintro start acc (rfl | rfl | rfl)
      · simp only [chunkLoop]
        rw [if_pos (by decide), if_neg (by decide)]
        exact ih _ _ (Or.inr (Or.inl (by decide)))
      · simp only [chunkLoop]
        rw [if_pos (by decide), if_neg (by decide)]
        exact ih _ _ (Or.inr (Or.inr (by decide)))
      · simp only [chunkLoop]
        rw [if_pos (by decide), if_neg (by decide)]
        exact ih _ _ (Or.inl (by decide))

/-! ### C1: termination of the chunking loop -/

/-- C1 counterexample: with `chunk_size = 10` and `overlap = 9` — parameters
satisfying `chunk_size > 0` and `0 ≤ overlap < chunk_size` — the chunking loop
of `chunk_text` does not terminate on the twelve-character text `T1`: the
boundary shrink makes the next start negative (`7 - 9 = -2`), Python's
negative-index slicing then yields empty windows, and the start cycles
`0, -2, -1, 0, ...` forever.  So the `>=` check does not guarantee
termination for every `0 ≤ overlap < chunk_size`. -/
theorem chunk_text_large_overlap_diverges :
    ((0 < 10 ∧ 9 < 10) ∧ ¬ chunkTextTerminates T1 10 9) := by
  refine ⟨⟨by decide, by decide⟩, ?_⟩
  rintro ⟨fuel, h⟩
  rw [chunkLoop_T1_cycle fuel 0 [] (Or.inl rfl)] at h
  simp at h

/-- C1 amended: for every `chunk_size > 0` and every overlap with
`0 ≤ overlap < chunk_size` and additionally
`overlap ≤ chunk_size / 2 + 1`, the chunking loop of `chunk_text` terminates
(the start strictly increases each iteration, so `text.length + 1` iterations
suffice); the source's default parameters `1000` and `200` lie in this
range. -/
theorem chunk_text_terminates_of_overlap_le_half (text : List Char)
    (cs ov : Nat) (hovcs : ov < cs) (hov : ov ≤ cs / 2 + 1) :
    chunkTextTerminates text cs ov :=
  ⟨text.length + 1,
    chunkLoop_isSome_of_fuel text cs ov hovcs hov (text.length + 1) 0 []
      (by omega) (by push_cast; omega)⟩

/-- Witness for the amended C1 theorem at a concrete input. -/
theorem chunk_text_terminates_witness :
    chunkTextTerminates ("hello world".toList) 4 2 :=
  chunk_text_terminates_of_overlap_le_half ("hello world".toList) 4 2
    (by decide) (by decide)

/-! ### C3: no parameter validation / no ConfigurationError -/

/-- C3 counterexample: for parameters violating `0 ≤ overlap < chunk_size`
(`chunk_size = 3`, `overlap = 3`) and the nonempty text `"ab"`, `chunk_text`
does not reject the input — there is no `ConfigurationError` (or any other
error signal) anywhere in the code — the loop simply keeps running (here it is
still unfinished after 50 iterations; the theorem below shows it never
finishes). -/
theorem chunk_text_invalid_overlap_cex :
    (¬ (3 : Nat) < 3) ∧ chunkLoop ("ab".toList) 3 3 50 0 [] = none := by
  refine ⟨by decide, ?_⟩
  exact chunkLoop_none_of_overlap_ge ("ab".toList) 3 3 (by decide) (by decide)
    50 0 [] (by decide)

/-- C3 amended: `chunk_text` performs no validation of `chunk_size`/`overlap`
and signals no `ConfigurationError` (no such error exists in the code).  For
any `overlap ≥ chunk_size` and nonempty text the loop never terminates: the
next start never exceeds the current one, so the loop condition stays true for
every amount of fuel. -/
theorem chunk_text_invalid_overlap_diverges (text : List Char) (cs ov : Nat)
    (hov : cs ≤ ov) (htext : text ≠ []) :
    ¬ chunkTextTerminates text cs ov := by
  rintro ⟨fuel, h⟩
  rw [chunkLoop_none_of_overlap_ge text cs ov hov
    (List.length_pos.mpr htext) fuel 0 [] (by omega)] at h
  simp at h

/-- Witness for the amended C3 theorem at a concrete input. -/
theorem chunk_text_invalid_overlap_witness :
    ¬ chunkTextTerminates ("xyz".toList) 2 5 :=
  chunk_text_invalid_overlap_diverges ("xyz".toList) 2 5 (by decide) (by decide)

/-! ### C4: the boundary-shrink condition mixes coordinate systems -/

/-- C4 failing input, evaluated: on `T4` with `chunk_size = 10`,
`overlap = 2`, the second window starts at `6` and its rightmost
boundary (`'.'` at window-relative index `7`, i.e. absolute position
`6 + 7 = 13`) lies past the window's midpoint `6 + 10 / 2 = 11`, so per the
claim the window should shrink to end at the boundary (end `14`).  The code
instead compares the window-relative `rfind` index `7` against the absolute
threshold `6 + 10 / 2 = 11` and keeps the full-length window: the recorded
ends are `[8, 16, 24, 32]`, not `[8, 14, ...]`.  (The first window, where
`start = 0`, is the only one for which the two readings coincide.) -/
theorem chunk_text_boundary_midpoint_mismatch :
    (chunk_text T4 10 2).map Chunk.start_position = [0, 6, 14, 22] ∧
    (chunk_text T4 10 2).map Chunk.end_position = [8, 16, 24, 32] ∧
    max (rfind (pySlice T4 6 16) '.') (rfind (pySlice T4 6 16) ' ') = 7 ∧
    ((6 : Int) + 7 > 6 + ((10 / 2 : Nat) : Int)) ∧
    windowEnd T4 10 6 = 16 := by
  decide

/-! ### C5: recorded offsets versus the text length -/

/-- C5 counterexample: on the two-character text `"hi"` with the source's
default parameters, the single emitted chunk records `end_position = 1000`
(`start + chunk_size`, unclamped), which exceeds the source text length `2`.
So `end_offset ≤ length(source_text)` does not hold. -/
theorem chunk_text_end_position_exceeds_length :
    (chunk_text ("hi".toList) 1000 200).map Chunk.end_position = [1000] ∧
    ¬ ((1000 : Int) ≤ (("hi".toList).length : Int)) := by
  decide

/-- C5 amended: for parameters in the terminating range
(`0 ≤ overlap < chunk_size`, `overlap ≤ chunk_size / 2 + 1`), every chunk
emitted by `chunk_text` satisfies
`0 ≤ start_offset ≤ end_offset ≤ start_offset + chunk_size` and
`start_offset < length(source_text)`; the recorded `end_offset` is the
unclamped window end and may exceed `length(source_text)`. -/
theorem chunk_text_offset_bounds (text : List Char) (cs ov : Nat)
    (hovcs : ov < cs) (hov : ov ≤ cs / 2 + 1) (c : Chunk)
    (hc : c ∈ chunk_text text cs ov) :
    0 ≤ c.start_position ∧ c.start_position ≤ c.end_position ∧
      c.end_position ≤ c.start_position + (cs : Int) ∧
      c.start_position < (text.length : Int) := by
  unfold chunk_text at hc
  cases h : chunkLoop text cs ov (text.length + 1) 0 [] with
  | none => rw [h] at hc; simp at hc
  | some r =>
      rw [h] at hc
      simp only [Option.getD_some] at hc
      exact chunkLoop_mem_bounds text cs ov hovcs hov (text.length + 1) 0 [] r
        (by omega) (by simp) h c hc

/-- Witness for the amended C5 theorem at a concrete input. -/
theorem chunk_text_offset_bounds_witness :
    0 ≤ (Chunk.mk ("hi".toList) 0 1000 0).start_position ∧
      (Chunk.mk ("hi".toList) 0 1000 0).start_position ≤
        (Chunk.mk ("hi".toList) 0 1000 0).end_position ∧
      (Chunk.mk ("hi".toList) 0 1000 0).end_position ≤
        (Chunk.mk ("hi".toList) 0 1000 0).start_position + ((1000 : Nat) : Int) ∧
      (Chunk.mk ("hi".toList) 0 1000 0).start_position <
        ((("hi".toList)).length : Int) :=
  chunk_text_offset_bounds ("hi".toList) 1000 200 (by decide) (by decide)
    (Chunk.mk ("hi".toList) 0 1000 0) (by decide)

/-! ### C7: emitted chunk text after trimming -/

/-- C7 counterexample: a text of ten spaces yields one emitted chunk whose
`text` field is the empty string — the window strips to empty and is appended
anyway, so a chunk that trims to empty IS emitted. -/
theorem chunk_text_emits_empty_chunk :
    (chunk_text (List.replicate 10 ' ') 1000 200).map Chunk.text = [[]] := by
  decide

/-- C7 amended: every chunk emitted by `chunk_text` carries exactly the
leading/trailing-whitespace-stripped window
`strip(text[start_position:end_position])`; the stripped text may be empty
(for all-whitespace windows) and such chunks are not filtered out. -/
theorem chunk_text_text_is_stripped_window (text : List Char) (cs ov : Nat)
    (c : Chunk) (hc : c ∈ chunk_text text cs ov) :
    c.text = pyStrip (pySlice text c.start_position c.end_position) := by
  unfold chunk_text at hc
  cases h : chunkLoop text cs ov (text.length + 1) 0 [] with
  | none => rw [h] at hc; simp at hc
  | some r =>
      rw [h] at hc
      simp only [Option.getD_some] at hc
      exact chunkLoop_mem_text text cs ov (text.length + 1) 0 [] r (by simp) h c hc

/-- Witness for the amended C7 theorem at a concrete input. -/
theorem chunk_text_text_is_stripped_window_witness :
    (Chunk.mk ("abc".toList) 0 1000 0).text =
      pyStrip (pySlice ("abc".toList) (Chunk.mk ("abc".toList) 0 1000 0).start_position
        (Chunk.mk ("abc".toList) 0 1000 0).end_position) :=
  chunk_text_text_is_stripped_window ("abc".toList) 1000 200
    (Chunk.mk ("abc".toList) 0 1000 0) (by decide)

/-! ### The index writer `index_pdf_document` (src/streamlit_app.py 93-149)

The OpenSearch collection is modelled as a concrete list of records; the
behaviour of the engine on each client call is an oracle (`EngineFaults`)
saying whether the call raises an exception (Python `except Exception`) and,
for `client.index`, what `result` field it acknowledges.  The MD5 fingerprint
`hashlib.md5(text).hexdigest()` is an external library call and is passed in
as a function parameter `hash`; `datetime.now().isoformat()` is passed in as
`now`. -/

/-- One record written to the `pdf_documents` index
(src/streamlit_app.py lines 132-140). -/
structure IndexedDoc where
  filename : String
  content : List Char
  chunk_id : Nat
  start_position : Int
  end_position : Int
  upload_date : String
  file_hash : String
deriving DecidableEq

/-- Oracle for the engine's behaviour during one `index_pdf_document` call:
whether `indices.create` raises, whether the dedup `search` raises, whether
the `k`-th `client.index` call raises, and the `result` field the `k`-th
successful `client.index` call returns. -/
structure EngineFaults where
  createFault : Option String
  searchFault : Option String
  indexFault : Nat → Option String
  indexResult : Nat → String

/-- Result dictionary of `index_pdf_document`: `{"status": "success",
"chunks_indexed": n}`, `{"status": "exists", "message": m}`, or
`{"status": "error", "message": m}`. -/
inductive IndexOutcome where
  | success (chunks_indexed : Nat)
  | exists_ (message : String)
  | error (message : String)
deriving DecidableEq

/-- The `for chunk in chunks` write loop (src/streamlit_app.py lines
130-144): each chunk is submitted with `client.index`; a raised exception
aborts the remaining writes (the records already written stay); the success
counter increments only when the engine acknowledges `result == 'created'`. -/
def indexChunks (faults : EngineFaults) (pdf_name now fh : String) :
    List Chunk → Nat → Nat → List IndexedDoc →
      Except String Nat × List IndexedDoc
  | [], _, indexed, store => (Except.ok indexed, store)
  | c :: rest, k, indexed, store =>
      match faults.indexFault k with
      | some e => (Except.error e, store)
      | none =>
          indexChunks faults pdf_name now fh rest (k + 1)
            (if faults.indexResult k = "created" then indexed + 1 else indexed)
            (store ++ [⟨pdf_name, c.text, c.chunk_id, c.start_position,
              c.end_position, now, fh⟩])

/-- `index_pdf_document(client, pdf_name, text_content)`
(src/streamlit_app.py lines 93-149): create the index (idempotent), compute
the MD5 fingerprint of the full text, search for an existing record with the
same `file_hash` (modelled by counting matching records in the store); when
one exists return the `exists` status without writing; otherwise chunk with
the default parameters `1000, 200` and write one record per chunk.  The
entire body sits in `try/except`, so every engine exception becomes an
`error` status. -/
def index_pdf_document (hash : List Char → String) (now : String)
    (faults : EngineFaults) (store : List IndexedDoc)
    (pdf_name : String) (text_content : List Char) :
    IndexOutcome × List IndexedDoc :=
  match faults.createFault with
  | some e => (.error e, store)
  | none =>
      match faults.searchFault with
      | some e => (.error e, store)
      | none =>
          if 0 < store.countP (fun d => d.file_hash == hash text_content) then
            (.exists_ "Document already indexed", store)
          else
            match indexChunks faults pdf_name now (hash text_content)
                (chunk_text text_content 1000 200) 0 0 store with
            | (Except.ok n, store2) => (.success n, store2)
            | (Except.error e, store2) => (.error e, store2)

/-- A fault-free engine behaviour: no call raises and every write is
acknowledged as `created`. -/
def noFaults : EngineFaults :=
  ⟨none, none, fun _ => none, fun _ => "created"⟩

/-- Stand-in for the external `hashlib.md5(...).hexdigest()` call (the only
property the code relies on is that it is a deterministic function of the full
text); its value here is the hex digest MD5 assigns to the empty string. -/
def md5Stub : List Char → String :=
  fun _ => "d41d8cd98f00b204e9800998ecf8427e"

/-! ### C2: ingesting text that produces zero chunks -/

/-- C2 counterexample: ingesting the empty string against an empty collection
with a fault-free engine returns `{"status": "success", "chunks_indexed": 0}`
and writes zero records; it does not return a failed/error outcome — the
string `"no content"` appears nowhere in the code. -/
theorem index_empty_text_cex :
    index_pdf_document md5Stub "2026-10-12T00:00:00" noFaults []
        "empty.pdf" [] = (IndexOutcome.success 0, []) ∧
      IndexOutcome.success 0 ≠ IndexOutcome.error "no content" := by
  exact ⟨rfl, by decide⟩

/-- C2 amended: when the engine raises no exception on create/search, no
existing record shares the fingerprint, and chunking yields zero chunks (as
for the empty string), `index_pdf_document` returns the success status with
`chunks_indexed = 0` — not a `Failed("no content")` outcome — and writes zero
records (the store is unchanged). -/
theorem index_zero_chunks_success_zero (hash : List Char → String)
    (now : String) (faults : EngineFaults) (store : List IndexedDoc)
    (pdf_name : String) (text : List Char)
    (hc : faults.createFault = none) (hs : faults.searchFault = none)
    (hdup : store.countP (fun d => d.file_hash == hash text) = 0)
    (hchunks : chunk_text text 1000 200 = []) :
    index_pdf_document hash now faults store pdf_name text =
      (IndexOutcome.success 0, store) := by
  unfold index_pdf_document
  rw [hc, hs, hchunks, hdup]
  simp [indexChunks]

/-- Witness for the amended C2 theorem at a concrete input (the store holds
one record whose fingerprint differs from the ingested text's). -/
theorem index_zero_chunks_success_zero_witness :
    index_pdf_document md5Stub "2026-10-12T00:00:01" noFaults
        [⟨"other.pdf", ['x'], 0, 0, 5, "t", "aaaa"⟩] "empty2.pdf" [] =
      (IndexOutcome.success 0, [⟨"other.pdf", ['x'], 0, 0, 5, "t", "aaaa"⟩]) :=
  index_zero_chunks_success_zero md5Stub "2026-10-12T00:00:01" noFaults
    [⟨"other.pdf", ['x'], 0, 0, 5, "t", "aaaa"⟩] "empty2.pdf" []
    rfl rfl (by decide) (by decide)

/-! ### C6: fingerprint deduplication performs no writes -/

/-- C6 confirmed: whenever the engine raises no exception on create/search and
at least one existing record's `file_hash` equals the fingerprint of the
ingested text, `index_pdf_document` returns the `exists` outcome with the
message `"Document already indexed"` and leaves the store unchanged (zero
writes) — for every filename under which the content is submitted. -/
theorem index_duplicate_fingerprint_no_writes (hash : List Char → String)
    (now : String) (faults : EngineFaults) (store : List IndexedDoc)
    (pdf_name : String) (text : List Char)
    (hc : faults.createFault = none) (hs : faults.searchFault = none)
    (hdup : ∃ d ∈ store, d.file_hash = hash text) :
    index_pdf_document hash now faults store pdf_name text =
      (IndexOutcome.exists_ "Document already indexed", store) := by
  unfold index_pdf_document
  rw [hc, hs]
  rw [if_pos]
  exact List.countP_pos_iff.mpr
    (by obtain ⟨d, hd, he⟩ := hdup; exact ⟨d, hd, by simpa using he⟩)

/-- Witness for the C6 theorem at a concrete input: the stored record carries
a different filename and arbitrary content, yet the matching fingerprint
makes the ingestion return `exists` without writes. -/
theorem index_duplicate_fingerprint_no_writes_witness :
    index_pdf_document md5Stub "2026-10-12T00:00:02" noFaults
        [⟨"a.pdf", [], 0, 0, 0, "t", "d41d8cd98f00b204e9800998ecf8427e"⟩]
        "b.pdf" ("anything".toList) =
      (IndexOutcome.exists_ "Document already indexed",
        [⟨"a.pdf", [], 0, 0, 0, "t", "d41d8cd98f00b204e9800998ecf8427e"⟩]) :=
  index_duplicate_fingerprint_no_writes md5Stub "2026-10-12T00:00:02" noFaults
    [⟨"a.pdf", [], 0, 0, 0, "t", "d41d8cd98f00b204e9800998ecf8427e"⟩]
    "b.pdf" ("anything".toList) rfl rfl (by decide)

/-! ### C10: the index writer never propagates an exception -/

/-- C10 confirmed: for every input and every engine behaviour — including any
exception raised on any of the create/search/index calls — the `try/except`
wrapping of `index_pdf_document` yields a status dictionary whose status is
one of `success`, `exists`, or `error`; no exception escapes. -/
theorem index_pdf_document_total_status (hash : List Char → String)
    (now : String) (faults : EngineFaults) (store : List IndexedDoc)
    (pdf_name : String) (text : List Char) :
    (∃ n, (index_pdf_document hash now faults store pdf_name text).1 =
        IndexOutcome.success n) ∨
    (∃ m, (index_pdf_document hash now faults store pdf_name text).1 =
        IndexOutcome.exists_ m) ∨
    (∃ m, (index_pdf_document hash now faults store pdf_name text).1 =
        IndexOutcome.error m) := by
  rcases h : (index_pdf_document hash now faults store pdf_name text).1
    with n | m | m
  · exact Or.inl ⟨n, rfl⟩
  · exact Or.inr (Or.inl ⟨m, rfl⟩)
  · exact Or.inr (Or.inr ⟨m, rfl⟩)

/-! ### C8: the search query specification (src/streamlit_app.py 154-176) -/

/-- A clause of the `bool.should` array: a free-text `match` or a
`match_phrase`, on a named field, with a boost weight. -/
inductive BoolClause where
  | match_ (field : String) (query : String) (boost : Nat)
  | match_phrase (field : String) (query : String) (boost : Nat)
deriving DecidableEq

/-- The highlight directive: fragments of `content`, each at most
`fragment_size` characters, at most `number_of_fragments` of them. -/
structure HighlightSpec where
  field : String
  fragment_size : Nat
  number_of_fragments : Nat
deriving DecidableEq

/-- The complete query specification built by `search_documents`. -/
structure SearchBody where
  should : List BoolClause
  highlight : HighlightSpec
  sortScoreDesc : Bool
  size : Nat
deriving DecidableEq

/-- The `search_body` dictionary constructed inside `search_documents`
(src/streamlit_app.py lines 154-176): three `should` clauses, content
highlighting (3 fragments of 200), descending `_score` sort, and the
requested result count. -/
def search_body (query : String) (size : Nat) : SearchBody :=
  ⟨[BoolClause.match_ "content" query 2,
    BoolClause.match_phrase "content" query 3,
    BoolClause.match_ "filename" query 1],
   ⟨"content", 200, 3⟩, true, size⟩

/-- C8 confirmed: for every query text and result limit, the query
specification combines exactly three clauses under `should` (OR) semantics: a
free-text match on `content` with boost 2, a phrase match on `content` with
boost 3, and a free-text match on the source-name field (`filename`) with
boost 1. -/
theorem search_body_should_clauses (query : String) (size : Nat) :
    (search_body query size).should =
      [BoolClause.match_ "content" query 2,
       BoolClause.match_phrase "content" query 3,
       BoolClause.match_ "filename" query 1] ∧
    (search_body query size).should.length = 3 :=
  ⟨rfl, rfl⟩

/-! ### C9: the analytics aggregations share a single try/except
(src/dashboard_app.py 131-184) -/

/-- Oracle for the engine's behaviour during one `search_analytics` call:
whether the upload-timeline aggregation raises and whether the
file-distribution aggregation raises. -/
structure AnalyticsFaults where
  timelineFault : Option String
  distributionFault : Option String
deriving DecidableEq

/-- `search_analytics(client)` (src/dashboard_app.py lines 131-184): the
upload-timeline and file-distribution aggregation calls are issued in
sequence inside one `try`; any exception makes the function return `None`
for everything.  The content-size aggregation is disabled in the source and
always reported as `None`. -/
def search_analytics (faults : AnalyticsFaults)
    (timelineResp distributionResp : List (String × Nat)) :
    Option (List (String × Nat) × List (String × Nat) × Option Unit) :=
  match faults.timelineFault with
  | some _ => none
  | none =>
      match faults.distributionFault with
      | some _ => none
      | none => some (timelineResp, distributionResp, none)

/-- C9 counterexample: when the upload-timeline aggregation raises,
`search_analytics` returns `None` for everything — the file-distribution
aggregation's result is not reported even though that aggregation itself had
no failure, so the aggregations are not requested/reported independently. -/
theorem search_analytics_not_independent_cex :
    search_analytics ⟨some "QueryError", none⟩ [] [("doc.pdf", 3)] = none :=
  rfl

/-- C9 amended: the two aggregations issued by `search_analytics` share a
single `try/except`: the result is `None` — losing both aggregations —
whenever either call raises, and the full triple (with the disabled
content-size slot fixed to `None`) is returned only when neither raises.
(The unique-document cardinality aggregation is issued by a separate caller,
not inside `search_analytics`.) -/
theorem search_analytics_single_try (faults : AnalyticsFaults)
    (timelineResp distributionResp : List (String × Nat)) :
    (faults.timelineFault.isSome ∨ faults.distributionFault.isSome →
      search_analytics faults timelineResp distributionResp = none) ∧
    (faults.timelineFault = none → faults.distributionFault = none →
      search_analytics faults timelineResp distributionResp =
        some (timelineResp, distributionResp, none)) := by
  obtain ⟨tf, df⟩ := faults
  cases tf <;> cases df <;> simp [search_analytics]

/-- Witness for the amended C9 theorem at concrete inputs: a timeline fault
alone voids the whole result, and the fault-free run returns the triple. -/
theorem search_analytics_single_try_witness :
    search_analytics ⟨some "boom", none⟩ [("day1", 2)] [("b.pdf", 4)] = none ∧
    search_analytics ⟨none, none⟩ [("day1", 2)] [("b.pdf", 4)] =
      some ([("day1", 2)], [("b.pdf", 4)], none) :=
  ⟨(search_analytics_single_try ⟨some "boom", none⟩ [("day1", 2)]
      [("b.pdf", 4)]).1 (Or.inl (by decide)),
   (search_analytics_single_try ⟨none, none⟩ [("day1", 2)]
      [("b.pdf", 4)]).2 rfl rfl⟩

end Elcam
